import Mathlib

/-!
Verification of `split_window_lst.py`: the split-window Land Surface
Temperature estimator for Landsat 8.

Numbers are modelled as rationals (`ℚ`); exact arithmetic stands in for
Python floats.  Exceptions are modelled with `Except String` (the raised
message is the error value) and `Option` (construction failure).  The
random source of `random.choice` is modelled by an explicit natural-number
draw: `random.choice(seq)` with draw `i` returns `seq[i % len(seq)]`, every
`i < len(seq)` being an equiprobable outcome, and fails on an empty
sequence (Python raises `IndexError` there).
-/

set_option synthInstance.maxSize 1000

/-- `DUMMY_MAPCALC_STRING_T10 = 'Input_T10'` (module-level constant). -/
def DUMMY_MAPCALC_STRING_T10 : String := "Input_T10"

/-- `DUMMY_MAPCALC_STRING_T11 = 'Input_T11'` (module-level constant). -/
def DUMMY_MAPCALC_STRING_T11 : String := "Input_T11"

/-- The fixed message of the `ValueError` raised by `check_t1x_range`. -/
def out_of_range_message : String :=
  "The input value for T10 is out of the expected range [1,65535]"

/-- `check_t1x_range(dn)`: returns `True` if `dn` lies in `[1, 65535]`,
otherwise raises `ValueError` with the fixed message. -/
def check_t1x_range (dn : ℚ) : Except String Bool :=
  if dn < 1 ∨ dn > 65535 then
    Except.error out_of_range_message
  else
    Except.ok true

/-- One entry of the `COLUMN_WATER_VAPOUR` dictionary: a record with a
`(low, high)` subrange over column-water-vapour space, eight regression
coefficients `b0..b7` and an `rmse`. -/
structure CWVEntry where
  subrange : ℚ × ℚ
  b0 : ℚ
  b1 : ℚ
  b2 : ℚ
  b3 : ℚ
  b4 : ℚ
  b5 : ℚ
  b6 : ℚ
  b7 : ℚ
  rmse : ℚ
deriving DecidableEq

/-- The `COLUMN_WATER_VAPOUR` dictionary: keys (subrange names) paired with
their entries.  Python dictionaries have distinct keys; theorems that need
this take it as a `Nodup` hypothesis. -/
abbrev CWVTable : Type := List (String × CWVEntry)

/-- `random.choice(seq)` parameterised by the random draw `i`: uniformly
selects `seq[i % len(seq)]` (each `i < len(seq)` equally likely), and fails
(`IndexError`) on an empty sequence. -/
def random_choice {α : Type} (seq : List α) (i : Nat) : Option α :=
  if h : seq.length = 0 then none
  else some (seq.get ⟨i % seq.length, Nat.mod_lt _ (Nat.pos_of_ne_zero h)⟩)

/-- The list comprehension of `_set_column_water_vapour_subrange`:
`[range_x for range_x, (low, high) in key_subrange_generator
  if low < cwv < high]` — the keys of all entries whose open interval
strictly contains `cwv`. -/
def subrange_matches (table : CWVTable) (cwv : ℚ) : List String :=
  (List.filter
      (fun kr => decide (kr.2.subrange.1 < cwv ∧ cwv < kr.2.subrange.2))
      table).map Prod.fst

/-- `self.cwv_subrange = random.choice([...])`: the subrange resolution
step, parameterised by the random draw. -/
def resolve (table : CWVTable) (cwv : ℚ) (i : Nat) : Option String :=
  random_choice (subrange_matches table cwv) i

/-- Arithmetic expressions over two placeholder variables, modelling the
text of the mapcalc formula: the two variables stand for the literal
placeholder tokens `Input_T10` / `Input_T11`, and interpretation of the
rendered arithmetic text is `MExpr.eval`. -/
inductive MExpr : Type where
  | num : ℚ → MExpr
  | varT10 : MExpr
  | varT11 : MExpr
  | add : MExpr → MExpr → MExpr
  | sub : MExpr → MExpr → MExpr
  | mul : MExpr → MExpr → MExpr
  | div : MExpr → MExpr → MExpr
  | pow : MExpr → Nat → MExpr
deriving DecidableEq, Inhabited

/-- Evaluate a mapcalc expression after substituting the two placeholder
tokens with the numbers `t10v` and `t11v`. -/
def MExpr.eval (t10v t11v : ℚ) : MExpr → ℚ
  | MExpr.num q => q
  | MExpr.varT10 => t10v
  | MExpr.varT11 => t11v
  | MExpr.add a b => MExpr.eval t10v t11v a + MExpr.eval t10v t11v b
  | MExpr.sub a b => MExpr.eval t10v t11v a - MExpr.eval t10v t11v b
  | MExpr.mul a b => MExpr.eval t10v t11v a * MExpr.eval t10v t11v b
  | MExpr.div a b => MExpr.eval t10v t11v a / MExpr.eval t10v t11v b
  | MExpr.pow a n => (MExpr.eval t10v t11v a) ^ n

/-- `_build_mapcalc`: the formula
`{b0} + ({b1} + ({b2})*((1-{ae})/{ae})) +
 ({b3})*({de}/{ae}) * (({T10} + {T11})/2) +
 ({b4} + ({b5})*((1-{ae})/{ae}) + ({b6})*({de}/{ae}^2))*(({T10} - {T11})/2) +
 ({b7})*({T10} - {T11})^2`
with numeric coefficients substituted and the two placeholder tokens left
as variables; `+` and `*` associate to the left, `^` binds tighter than
`/`. -/
def build_mapcalc (b0 b1 b2 b3 b4 b5 b6 b7 ae de : ℚ) : MExpr :=
  MExpr.add
    (MExpr.add
      (MExpr.add
        (MExpr.add
          (MExpr.num b0)
          (MExpr.add (MExpr.num b1)
            (MExpr.mul (MExpr.num b2)
              (MExpr.div (MExpr.sub (MExpr.num 1) (MExpr.num ae))
                (MExpr.num ae)))))
        (MExpr.mul
          (MExpr.mul (MExpr.num b3) (MExpr.div (MExpr.num de) (MExpr.num ae)))
          (MExpr.div (MExpr.add MExpr.varT10 MExpr.varT11) (MExpr.num 2))))
      (MExpr.mul
        (MExpr.add
          (MExpr.add (MExpr.num b4)
            (MExpr.mul (MExpr.num b5)
              (MExpr.div (MExpr.sub (MExpr.num 1) (MExpr.num ae))
                (MExpr.num ae))))
          (MExpr.mul (MExpr.num b6)
            (MExpr.div (MExpr.num de) (MExpr.pow (MExpr.num ae) 2))))
        (MExpr.div (MExpr.sub MExpr.varT10 MExpr.varT11) (MExpr.num 2))))
    (MExpr.mul (MExpr.num b7) (MExpr.pow (MExpr.sub MExpr.varT10 MExpr.varT11) 2))

/-- The state of a `SplitWindowLST` instance after `__init__`.  The
`citation` string and the display/mapcalc renderings are instance fields in
the source; the mapcalc rendering is carried as its expression tree.  The
`lst` field is absent before the first `compute_lst` call (`none`). -/
structure SplitWindowLST where
  citation : String
  emissivity_t10 : ℚ
  emissivity_t11 : ℚ
  average_emissivity : ℚ
  delta_emissivity : ℚ
  column_water_vapour : ℚ
  cwv_subrange : String
  b0 : ℚ
  b1 : ℚ
  b2 : ℚ
  b3 : ℚ
  b4 : ℚ
  b5 : ℚ
  b6 : ℚ
  b7 : ℚ
  cwv_coefficients : ℚ × ℚ × ℚ × ℚ × ℚ × ℚ × ℚ × ℚ
  rmse : ℚ
  mapcalc : MExpr
  lst : Option ℚ
deriving DecidableEq, Inhabited

/-- The citation string set by `__init__`. -/
def citation_text : String :=
  "Du, Chen; Ren, Huazhong; Qin, Qiming; Meng, Jinjie; Zhao, Shaohua. 2015. \"A Practical Split-Window Algorithm for Estimating Land Surface Temperature from Landsat 8 Data.\" Remote Sens. 7, no. 1: 647-665."

/-- `SplitWindowLST.__init__(emissivity_b10, emissivity_b11,
column_water_vapour)`, parameterised by the coefficient table (the
module-level `COLUMN_WATER_VAPOUR` dictionary) and the random draw used by
subrange resolution.  `none` models an exception escaping the constructor:
`random.choice` on an empty match list (`IndexError`) or a failed
dictionary lookup (`KeyError`). -/
def SplitWindowLST.init (table : CWVTable)
    (emissivity_b10 emissivity_b11 column_water_vapour : ℚ) (i : Nat) :
    Option SplitWindowLST :=
  let e10 := emissivity_b10
  let e11 := emissivity_b11
  let ae := 0.5 * (e10 + e11)
  let de := e10 - e11
  match resolve table column_water_vapour i with
  | none => none
  | some key =>
    match List.lookup key table with
    | none => none
    | some r =>
      some {
        citation := citation_text
        emissivity_t10 := e10
        emissivity_t11 := e11
        average_emissivity := ae
        delta_emissivity := de
        column_water_vapour := column_water_vapour
        cwv_subrange := key
        b0 := r.b0
        b1 := r.b1
        b2 := r.b2
        b3 := r.b3
        b4 := r.b4
        b5 := r.b5
        b6 := r.b6
        b7 := r.b7
        cwv_coefficients := (r.b0, r.b1, r.b2, r.b3, r.b4, r.b5, r.b6, r.b7)
        rmse := r.rmse
        mapcalc := build_mapcalc r.b0 r.b1 r.b2 r.b3 r.b4 r.b5 r.b6 r.b7 ae de
        lst := none
      }

/-- `compute_lst(self, t10, t11)`: validates both inputs (a raised
`ValueError` propagates, aborting the call), evaluates the split-window
formula, stores it in `self.lst` and returns it.  The returned pair is
(return value, state after the call). -/
def SplitWindowLST.compute_lst (s : SplitWindowLST) (t10 t11 : ℚ) :
    Except String (ℚ × SplitWindowLST) :=
  match check_t1x_range t10 with
  | Except.error msg => Except.error msg
  | Except.ok _ =>
    match check_t1x_range t11 with
    | Except.error msg => Except.error msg
    | Except.ok _ =>
      let avg := s.average_emissivity
      let delta := s.delta_emissivity
      let a := s.b0
      let b := s.b1 + s.b2 * ((1 - avg) / avg)
      let c := s.b3 * (delta / avg) * ((t10 + t11) / 2)
      let d1 := s.b4 + s.b5 * ((1 - avg) / avg) + s.b6 * (delta / avg ^ 2)
      let d2 := (t10 - t11) / 2
      let d := d1 * d2
      let e := s.b7 * (t10 - t11) ^ 2
      let result := a + b + c + d + e
      Except.ok (result, { s with lst := some result })

/-! ## Concrete data used by the closed witnesses -/

/-- A concrete coefficient-table entry whose subrange is `(0, 63/10)`,
standing for the documented CWV domain `(0.0, 6.3]`. -/
def demo_entry : CWVEntry :=
  { subrange := (0, 63/10), b0 := 1, b1 := 2, b2 := 3, b3 := 4,
    b4 := 5, b5 := 6, b6 := 7, b7 := 8, rmse := 1/2 }

/-- A second entry whose subrange `(1, 4)` overlaps `demo_entry`. -/
def demo_entry_b : CWVEntry :=
  { subrange := (1, 4), b0 := 2, b1 := 1, b2 := 0, b3 := 0,
    b4 := 0, b5 := 0, b6 := 0, b7 := 0, rmse := 1 }

/-- A one-entry coefficient table. -/
def demo_table : CWVTable := [("Range_1", demo_entry)]

/-- A two-entry coefficient table with overlapping subranges. -/
def demo_table2 : CWVTable := [("Range_1", demo_entry), ("Range_2", demo_entry_b)]

/-- The estimator `SplitWindowLST(1, 1, 2)` built over `demo_table` (draw 0),
written out field by field. -/
def demo_est : SplitWindowLST :=
  { citation := citation_text
    emissivity_t10 := 1
    emissivity_t11 := 1
    average_emissivity := 1
    delta_emissivity := 0
    column_water_vapour := 2
    cwv_subrange := "Range_1"
    b0 := 1
    b1 := 2
    b2 := 3
    b3 := 4
    b4 := 5
    b5 := 6
    b6 := 7
    b7 := 8
    cwv_coefficients := (1, 2, 3, 4, 5, 6, 7, 8)
    rmse := 1/2
    mapcalc := build_mapcalc 1 2 3 4 5 6 7 8 1 0
    lst := none }

/-! ## Helper lemmas -/

/-- `check_t1x_range` succeeds on in-range inputs. -/
theorem check_t1x_range_in_range {dn : ℚ} (h1 : 1 ≤ dn) (h2 : dn ≤ 65535) :
    check_t1x_range dn = Except.ok true := by
  unfold check_t1x_range
  rw [if_neg]
  push_neg
  exact ⟨h1, h2⟩

/-- Membership in the match list of `_set_column_water_vapour_subrange`:
exactly the keys of entries whose open interval strictly contains `cwv`. -/
theorem mem_subrange_matches {table : CWVTable} {cwv : ℚ} {k : String} :
    k ∈ subrange_matches table cwv ↔
      ∃ r, (k, r) ∈ table ∧ r.subrange.1 < cwv ∧ cwv < r.subrange.2 := by
  unfold subrange_matches
  simp only [List.mem_map, List.mem_filter, decide_eq_true_eq]
  constructor
  · rintro ⟨⟨a, b⟩, ⟨hmem, hlow, hhigh⟩, rfl⟩
    exact ⟨b, hmem, hlow, hhigh⟩
  · rintro ⟨r, hmem, hlow, hhigh⟩
    exact ⟨(k, r), ⟨hmem, hlow, hhigh⟩, rfl⟩

/-- Distinct dictionary keys give a duplicate-free match list. -/
theorem subrange_matches_nodup {table : CWVTable} {cwv : ℚ}
    (hnd : (table.map Prod.fst).Nodup) :
    (subrange_matches table cwv).Nodup := by
  unfold subrange_matches
  exact hnd.sublist ((List.filter_sublist table).map Prod.fst)

/-- `random.choice` on a list seen at an in-bounds draw. -/
theorem random_choice_get {α : Type} (seq : List α) (i : Nat) (h : i < seq.length) :
    random_choice seq i = some (seq.get ⟨i, h⟩) := by
  unfold random_choice
  rw [dif_neg (Nat.pos_iff_ne_zero.mp (Nat.lt_of_le_of_lt (Nat.zero_le i) h))]
  simp [Nat.mod_eq_of_lt h]

/-- Constructing `SplitWindowLST(1, 1, 2)` over `demo_table` (draw 0)
yields `demo_est`. -/
theorem demo_init : SplitWindowLST.init demo_table 1 1 2 0 = some demo_est := by
  unfold SplitWindowLST.init resolve random_choice subrange_matches
  norm_num [demo_table, demo_entry, List.filter_cons, List.lookup, demo_est]

/-- `demo_est.compute_lst 300 295` evaluates to `431/2` and caches it. -/
theorem demo_compute :
    demo_est.compute_lst 300 295 =
      Except.ok (431/2, { demo_est with lst := some (431/2) }) := by
  unfold SplitWindowLST.compute_lst check_t1x_range
  norm_num [demo_est]

/-! ## Claims -/

/-- C1: For every estimator whose resolved subrange supplies coefficients
`b0..b7`, with `ae = average_emissivity` (`ae ≠ 0`) and
`de = delta_emissivity`, and for all inputs `t10`, `t11` in `[1, 65535]`,
`compute_lst(t10, t11)` returns exactly
`b0 + (b1 + b2*((1-ae)/ae)) + b3*(de/ae)*((t10+t11)/2)
 + (b4 + b5*((1-ae)/ae) + b6*(de/ae^2))*((t10-t11)/2) + b7*(t10-t11)^2`. -/
theorem C1_compute_lst_formula (s : SplitWindowLST) (t10 t11 : ℚ)
    (_hae : s.average_emissivity ≠ 0)
    (h1 : 1 ≤ t10) (h2 : t10 ≤ 65535) (h3 : 1 ≤ t11) (h4 : t11 ≤ 65535) :
    ∃ s' : SplitWindowLST, s.compute_lst t10 t11 =
      Except.ok
        (s.b0 +
          (s.b1 + s.b2 * ((1 - s.average_emissivity) / s.average_emissivity)) +
          s.b3 * (s.delta_emissivity / s.average_emissivity) * ((t10 + t11) / 2) +
          (s.b4 + s.b5 * ((1 - s.average_emissivity) / s.average_emissivity) +
            s.b6 * (s.delta_emissivity / s.average_emissivity ^ 2)) *
            ((t10 - t11) / 2) +
          s.b7 * (t10 - t11) ^ 2, s') := by
  unfold SplitWindowLST.compute_lst
  rw [check_t1x_range_in_range h1 h2, check_t1x_range_in_range h3 h4]
  exact ⟨_, rfl⟩

/-- C1 witness: the formula theorem applied to the concrete estimator
`demo_est` at `(300, 295)`. -/
theorem C1_compute_lst_formula_witness :
    ∃ s' : SplitWindowLST, demo_est.compute_lst 300 295 =
      Except.ok
        (demo_est.b0 +
          (demo_est.b1 +
            demo_est.b2 *
              ((1 - demo_est.average_emissivity) / demo_est.average_emissivity)) +
          demo_est.b3 * (demo_est.delta_emissivity / demo_est.average_emissivity) *
            ((300 + 295) / 2) +
          (demo_est.b4 +
            demo_est.b5 *
              ((1 - demo_est.average_emissivity) / demo_est.average_emissivity) +
            demo_est.b6 *
              (demo_est.delta_emissivity / demo_est.average_emissivity ^ 2)) *
            ((300 - 295) / 2) +
          demo_est.b7 * (300 - 295) ^ 2, s') :=
  C1_compute_lst_formula demo_est 300 295 (by norm_num [demo_est])
    (by norm_num) (by norm_num) (by norm_num) (by norm_num)

/-- C2: for every `dn` in `[1, 65535]`, `check_t1x_range dn` succeeds
(returning `True`); for every `dn < 1` or `dn > 65535`, it raises the
out-of-range error. -/
theorem C2_check_t1x_range_spec (dn : ℚ) :
    (check_t1x_range dn = Except.ok true ↔ 1 ≤ dn ∧ dn ≤ 65535) ∧
    (check_t1x_range dn = Except.error out_of_range_message ↔
      (dn < 1 ∨ 65535 < dn)) := by
  by_cases h : dn < 1 ∨ dn > 65535
  · have hc : check_t1x_range dn = Except.error out_of_range_message := by
      unfold check_t1x_range
      exact if_pos h
    rw [hc]
    refine ⟨⟨fun hx => Except.noConfusion hx, fun hx => ?_⟩,
            ⟨fun _ => h, fun _ => rfl⟩⟩
    exfalso
    rcases h with h | h
    · exact absurd hx.1 (not_le.mpr h)
    · exact absurd hx.2 (not_le.mpr h)
  · have hc : check_t1x_range dn = Except.ok true := by
      unfold check_t1x_range
      exact if_neg h
    rw [hc]
    push_neg at h
    refine ⟨⟨fun _ => h, fun _ => rfl⟩,
            ⟨fun hx => Except.noConfusion hx, fun hx => ?_⟩⟩
    exfalso
    rcases hx with hx | hx
    · exact absurd hx (not_lt.mpr h.1)
    · exact absurd hx (not_lt.mpr h.2)

/-- `check_t1x_range` raises the fixed message on out-of-range inputs. -/
theorem check_t1x_range_out_of_range {dn : ℚ} (h : dn < 1 ∨ 65535 < dn) :
    check_t1x_range dn = Except.error out_of_range_message := by
  unfold check_t1x_range
  exact if_pos h

/-- C3 counterexample: with `t11 = 0` out of range (and `t10 = 300` valid),
the raised error is the fixed message naming T10 — not T11 and not the
failing value; moreover with `t10 = 0` invalid the outcome is identical
whether `t11` is valid (`300`) or invalid (`70000`), so the caller cannot
learn about `t11`'s failure: the checks short-circuit. -/
theorem C3_counterexample :
    demo_est.compute_lst 300 0 = Except.error out_of_range_message ∧
    demo_est.compute_lst 0 300 = Except.error out_of_range_message ∧
    demo_est.compute_lst 0 70000 = demo_est.compute_lst 0 300 := by
  unfold SplitWindowLST.compute_lst check_t1x_range
  norm_num

/-- C3 (amended): an out-of-range operand raises the one fixed message
`'The input value for T10 is out of the expected range [1,65535]'`, which
names T10 regardless of which operand failed and never carries the failing
value; `t10` is checked first and its failure short-circuits (for any
`t11`), and `t11` is checked only when `t10` is in range — the same order
every call. -/
theorem C3_fixed_message_short_circuit (s : SplitWindowLST) (t10 t11 : ℚ) :
    ((t10 < 1 ∨ 65535 < t10) →
      s.compute_lst t10 t11 = Except.error out_of_range_message) ∧
    (1 ≤ t10 → t10 ≤ 65535 → (t11 < 1 ∨ 65535 < t11) →
      s.compute_lst t10 t11 = Except.error out_of_range_message) := by
  constructor
  · intro h
    unfold SplitWindowLST.compute_lst
    rw [check_t1x_range_out_of_range h]
  · intro h1 h2 h3
    unfold SplitWindowLST.compute_lst
    rw [check_t1x_range_in_range h1 h2, check_t1x_range_out_of_range h3]

/-- C3 witness: the amended theorem applied at concrete inputs: a failing
`t10 = 0` and a failing `t11 = 70000`. -/
theorem C3_fixed_message_short_circuit_witness :
    demo_est.compute_lst 0 300 = Except.error out_of_range_message ∧
    demo_est.compute_lst 300 70000 = Except.error out_of_range_message :=
  ⟨(C3_fixed_message_short_circuit demo_est 0 300).1 (Or.inl (by norm_num)),
   (C3_fixed_message_short_circuit demo_est 300 70000).2 (by norm_num)
     (by norm_num) (Or.inr (by norm_num))⟩

/-- C4: for every CWV value strictly contained in zero subranges of the
coefficient table, constructing the estimator fails at construction time
(`random.choice` on the empty match list raises) rather than resolving to
a default subrange. -/
theorem C4_no_matching_subrange (table : CWVTable) (e10 e11 cwv : ℚ) (i : Nat)
    (h : ∀ kr ∈ table, ¬ (kr.2.subrange.1 < cwv ∧ cwv < kr.2.subrange.2)) :
    SplitWindowLST.init table e10 e11 cwv i = none := by
  have hm : subrange_matches table cwv = [] := by
    unfold subrange_matches
    rw [List.filter_eq_nil_iff.mpr fun a ha => by simpa using h a ha]
    rfl
  unfold SplitWindowLST.init resolve
  rw [hm]
  rfl

/-- C4 witness: `cwv = 7` lies outside the single subrange `(0, 6.3)` of
`demo_table`, so construction fails. -/
theorem C4_no_matching_subrange_witness :
    SplitWindowLST.init demo_table 1 1 7 0 = none :=
  C4_no_matching_subrange demo_table 1 1 7 0 (by
    intro kr hkr
    simp only [demo_table, List.mem_singleton] at hkr
    subst hkr
    norm_num [demo_entry])

/-- C5: when exactly one subrange's open interval strictly contains the
CWV value (the match list is the singleton of its key), resolution selects
that subrange whatever the random draw. -/
theorem C5_unique_match_deterministic (table : CWVTable) (cwv : ℚ) (k : String)
    (h : subrange_matches table cwv = [k]) (i : Nat) :
    resolve table cwv i = some k := by
  unfold resolve
  rw [h]
  unfold random_choice
  simp [Nat.mod_one]

/-- C5 witness: on `demo_table`, `cwv = 2` matches exactly `"Range_1"`, and
draw 5 (like any other) selects it. -/
theorem C5_unique_match_deterministic_witness :
    resolve demo_table 2 5 = some "Range_1" :=
  C5_unique_match_deterministic demo_table 2 "Range_1"
    (by norm_num [subrange_matches, demo_table, demo_entry, List.filter_cons]) 5

/-- The match list of `demo_table2` at `cwv = 2`: both subranges overlap. -/
theorem demo2_matches : subrange_matches demo_table2 2 = ["Range_1", "Range_2"] := by
  norm_num [subrange_matches, demo_table2, demo_entry, demo_entry_b, List.filter_cons]

/-- C6: when two or more subranges strictly contain the CWV value,
resolution (a) always lands on a key whose entry strictly contains the
value, (b) can reach every such key, and (c) selects each such key for
exactly one of the `n` equiprobable draws `0..n-1` (`n` = match-list
length), i.e. uniformly with probability `1/n` each. -/
theorem C6_overlap_uniform_choice (table : CWVTable) (cwv : ℚ)
    (hnd : (table.map Prod.fst).Nodup)
    (hlen : 2 ≤ (subrange_matches table cwv).length) :
    (∀ i : Nat, ∃ k, resolve table cwv i = some k ∧
        ∃ r, (k, r) ∈ table ∧ r.subrange.1 < cwv ∧ cwv < r.subrange.2) ∧
    (∀ k r, (k, r) ∈ table → r.subrange.1 < cwv → cwv < r.subrange.2 →
        ∃ i : Nat, resolve table cwv i = some k) ∧
    (∀ k r, (k, r) ∈ table → r.subrange.1 < cwv → cwv < r.subrange.2 →
        (Finset.filter
            (fun j : Fin (subrange_matches table cwv).length =>
              resolve table cwv j.val = some k) Finset.univ).card = 1) := by
  have hpos : 0 < (subrange_matches table cwv).length := by omega
  have hne : (subrange_matches table cwv).length ≠ 0 := by omega
  have hres : ∀ i : Nat, ∀ hi : i < (subrange_matches table cwv).length,
      resolve table cwv i = some ((subrange_matches table cwv).get ⟨i, hi⟩) :=
    fun i hi => random_choice_get _ i hi
  refine ⟨?_, ?_, ?_⟩
  · intro i
    have hm : i % (subrange_matches table cwv).length <
        (subrange_matches table cwv).length := Nat.mod_lt i hpos
    refine ⟨(subrange_matches table cwv).get ⟨i % _, hm⟩, ?_,
      mem_subrange_matches.mp (List.get_mem _ _ _)⟩
    unfold resolve random_choice
    rw [dif_neg hne]
  · intro k r hmem hlow hhigh
    have hk : k ∈ subrange_matches table cwv :=
      mem_subrange_matches.mpr ⟨r, hmem, hlow, hhigh⟩
    have hidx : (subrange_matches table cwv).indexOf k <
        (subrange_matches table cwv).length := List.indexOf_lt_length.mpr hk
    refine ⟨(subrange_matches table cwv).indexOf k, ?_⟩
    rw [hres _ hidx, List.indexOf_get hidx]
  · intro k r hmem hlow hhigh
    have hk : k ∈ subrange_matches table cwv :=
      mem_subrange_matches.mpr ⟨r, hmem, hlow, hhigh⟩
    have hnd2 : (subrange_matches table cwv).Nodup := subrange_matches_nodup hnd
    have hidx : (subrange_matches table cwv).indexOf k <
        (subrange_matches table cwv).length := List.indexOf_lt_length.mpr hk
    rw [Finset.card_eq_one]
    refine ⟨⟨(subrange_matches table cwv).indexOf k, hidx⟩, ?_⟩
    rw [Finset.eq_singleton_iff_unique_mem]
    constructor
    · rw [Finset.mem_filter]
      exact ⟨Finset.mem_univ _, by rw [hres _ hidx, List.indexOf_get hidx]⟩
    · intro x hx
      rw [Finset.mem_filter, hres x.val x.isLt] at hx
      have hgx : (subrange_matches table cwv).get ⟨x.val, x.isLt⟩ = k :=
        Option.some.inj hx.2
      have hxi : (subrange_matches table cwv).get ⟨x.val, x.isLt⟩ =
          (subrange_matches table cwv).get
            ⟨(subrange_matches table cwv).indexOf k, hidx⟩ := by
        rw [hgx, List.indexOf_get hidx]
      exact hnd2.get_inj_iff.mp hxi

/-- C6 witness: on `demo_table2`, `cwv = 2` is strictly inside both
subranges; the uniformity theorem applied there. -/
theorem C6_overlap_uniform_choice_witness :
    (∀ i : Nat, ∃ k, resolve demo_table2 2 i = some k ∧
        ∃ r, (k, r) ∈ demo_table2 ∧ r.subrange.1 < 2 ∧ 2 < r.subrange.2) ∧
    (∀ k r, (k, r) ∈ demo_table2 → r.subrange.1 < 2 → 2 < r.subrange.2 →
        ∃ i : Nat, resolve demo_table2 2 i = some k) ∧
    (∀ k r, (k, r) ∈ demo_table2 → r.subrange.1 < 2 → 2 < r.subrange.2 →
        (Finset.filter
            (fun j : Fin (subrange_matches demo_table2 2).length =>
              resolve demo_table2 2 j.val = some k) Finset.univ).card = 1) :=
  C6_overlap_uniform_choice demo_table2 2 (by decide)
    (by rw [demo2_matches]; norm_num)

/-- A successful `check_t1x_range` result is always `ok True`. -/
theorem check_t1x_range_ok {dn : ℚ} {b : Bool}
    (h : check_t1x_range dn = Except.ok b) :
    check_t1x_range dn = Except.ok true := by
  by_cases hc : dn < 1 ∨ dn > 65535
  · rw [check_t1x_range_out_of_range hc] at h
    exact Except.noConfusion h
  · push_neg at hc
    exact check_t1x_range_in_range hc.1 hc.2

/-- Inversion of a successful `compute_lst` call: both range checks
passed, the returned value is the split-window formula, and the post-state
is the pre-state with only `lst` overwritten. -/
theorem compute_lst_ok_inv {s : SplitWindowLST} {t10 t11 v : ℚ}
    {s' : SplitWindowLST}
    (h : s.compute_lst t10 t11 = Except.ok (v, s')) :
    check_t1x_range t10 = Except.ok true ∧
    check_t1x_range t11 = Except.ok true ∧
    v = s.b0 +
        (s.b1 + s.b2 * ((1 - s.average_emissivity) / s.average_emissivity)) +
        s.b3 * (s.delta_emissivity / s.average_emissivity) * ((t10 + t11) / 2) +
        (s.b4 + s.b5 * ((1 - s.average_emissivity) / s.average_emissivity) +
          s.b6 * (s.delta_emissivity / s.average_emissivity ^ 2)) *
          ((t10 - t11) / 2) +
        s.b7 * (t10 - t11) ^ 2 ∧
    s' = { s with lst := some v } := by
  unfold SplitWindowLST.compute_lst at h
  rcases hc1 : check_t1x_range t10 with m | b1
  · rw [hc1] at h
    exact Except.noConfusion h
  rw [hc1] at h
  rcases hc2 : check_t1x_range t11 with m | b2
  · rw [hc2] at h
    exact Except.noConfusion h
  rw [hc2] at h
  simp only [Except.ok.injEq, Prod.mk.injEq] at h
  obtain ⟨hv, hs⟩ := h
  exact ⟨hc1 ▸ check_t1x_range_ok hc1, hc2 ▸ check_t1x_range_ok hc2, hv.symm,
    hv ▸ hs.symm⟩

/-- Inversion of a successful construction: the derived emissivities, the
initial absence of `lst`, and the mapcalc rendering determined by the
resolved coefficients. -/
theorem init_some_inv {table : CWVTable} {e10 e11 cwv : ℚ} {i : Nat}
    {s : SplitWindowLST}
    (hinit : SplitWindowLST.init table e10 e11 cwv i = some s) :
    s.average_emissivity = 0.5 * (e10 + e11) ∧
    s.delta_emissivity = e10 - e11 ∧
    s.emissivity_t10 = e10 ∧
    s.emissivity_t11 = e11 ∧
    s.lst = none ∧
    s.mapcalc = build_mapcalc s.b0 s.b1 s.b2 s.b3 s.b4 s.b5 s.b6 s.b7
      s.average_emissivity s.delta_emissivity := by
  unfold SplitWindowLST.init at hinit
  split at hinit
  · exact Option.noConfusion hinit
  · split at hinit
    · exact Option.noConfusion hinit
    · simp only [Option.some.injEq] at hinit
      subst hinit
      exact ⟨rfl, rfl, rfl, rfl, rfl, rfl⟩

/-- C7: on a fixed estimator, a repeated `compute_lst` call with the same
arguments returns the identical value (and the identical state): the value
depends only on fields a call never changes. -/
theorem C7_idempotent (s : SplitWindowLST) (t10 t11 v : ℚ)
    (s' : SplitWindowLST)
    (h : s.compute_lst t10 t11 = Except.ok (v, s')) :
    s'.compute_lst t10 t11 = Except.ok (v, s') := by
  obtain ⟨hc1, hc2, hv, hs⟩ := compute_lst_ok_inv h
  subst hs
  subst hv
  unfold SplitWindowLST.compute_lst
  rw [hc1, hc2]

/-- C7 witness: the idempotence theorem applied to the concrete call
`demo_est.compute_lst 300 295`. -/
theorem C7_idempotent_witness :
    ({ demo_est with lst := some (431/2) } : SplitWindowLST).compute_lst
        300 295 =
      Except.ok (431/2, { demo_est with lst := some (431/2) }) :=
  C7_idempotent demo_est 300 295 (431/2) _ demo_compute

/-- C8: after construction `average_emissivity = 0.5*(e10+e11)` and
`delta_emissivity = e10-e11`, and a `compute_lst` call changes no field of
the estimator other than the `lst` cache. -/
theorem C8_construction_and_frame (table : CWVTable) (e10 e11 cwv : ℚ)
    (i : Nat) (s : SplitWindowLST) (t10 t11 v : ℚ) (s' : SplitWindowLST)
    (hinit : SplitWindowLST.init table e10 e11 cwv i = some s)
    (hcall : s.compute_lst t10 t11 = Except.ok (v, s')) :
    s.average_emissivity = 0.5 * (e10 + e11) ∧
    s.delta_emissivity = e10 - e11 ∧
    s' = { s with lst := s'.lst } := by
  obtain ⟨hae, hde, -, -, -, -⟩ := init_some_inv hinit
  obtain ⟨-, -, -, hs⟩ := compute_lst_ok_inv hcall
  subst hs
  exact ⟨hae, hde, rfl⟩

/-- C8 witness: construction and frame condition at the concrete
estimator `demo_est` and the call `compute_lst 300 295`. -/
theorem C8_construction_and_frame_witness :
    demo_est.average_emissivity = 0.5 * (1 + 1) ∧
    demo_est.delta_emissivity = 1 - 1 ∧
    ({ demo_est with lst := some (431/2) } : SplitWindowLST) =
      { demo_est with
        lst := ({ demo_est with lst := some (431/2) } : SplitWindowLST).lst } :=
  C8_construction_and_frame demo_table 1 1 2 0 demo_est 300 295 (431/2) _
    demo_init demo_compute

/-- Evaluating the rendered mapcalc formula is exactly the split-window
formula. -/
theorem eval_build_mapcalc (b0 b1 b2 b3 b4 b5 b6 b7 ae de t10 t11 : ℚ) :
    MExpr.eval t10 t11 (build_mapcalc b0 b1 b2 b3 b4 b5 b6 b7 ae de) =
      b0 + (b1 + b2 * ((1 - ae) / ae)) + b3 * (de / ae) * ((t10 + t11) / 2) +
        (b4 + b5 * ((1 - ae) / ae) + b6 * (de / ae ^ 2)) * ((t10 - t11) / 2) +
        b7 * (t10 - t11) ^ 2 :=
  rfl

/-- C9: for every estimator produced by construction and every valid pair
`(t10, t11)`, substituting the two fixed placeholder tokens (`Input_T10`,
`Input_T11`, identical on every rendering) of the rendered mapcalc formula
with the numbers `t10` and `t11` and interpreting the arithmetic yields
exactly the value `compute_lst t10 t11` returns. -/
theorem C9_mapcalc_refines_compute_lst (table : CWVTable) (e10 e11 cwv : ℚ)
    (i : Nat) (s : SplitWindowLST) (t10 t11 v : ℚ) (s' : SplitWindowLST)
    (hinit : SplitWindowLST.init table e10 e11 cwv i = some s)
    (_h1 : 1 ≤ t10) (_h2 : t10 ≤ 65535) (_h3 : 1 ≤ t11) (_h4 : t11 ≤ 65535)
    (hcall : s.compute_lst t10 t11 = Except.ok (v, s')) :
    MExpr.eval t10 t11 s.mapcalc = v ∧
    DUMMY_MAPCALC_STRING_T10 = "Input_T10" ∧
    DUMMY_MAPCALC_STRING_T11 = "Input_T11" := by
  obtain ⟨-, -, -, -, -, hm⟩ := init_some_inv hinit
  obtain ⟨-, -, hv, -⟩ := compute_lst_ok_inv hcall
  refine ⟨?_, rfl, rfl⟩
  rw [hm, eval_build_mapcalc]
  exact hv.symm

/-- C9 witness: the refinement theorem at `demo_est` and `(300, 295)`. -/
theorem C9_mapcalc_refines_compute_lst_witness :
    MExpr.eval 300 295 demo_est.mapcalc = 431/2 ∧
    DUMMY_MAPCALC_STRING_T10 = "Input_T10" ∧
    DUMMY_MAPCALC_STRING_T11 = "Input_T11" :=
  C9_mapcalc_refines_compute_lst demo_table 1 1 2 0 demo_est 300 295
    (431/2) _ demo_init (by norm_num) (by norm_num) (by norm_num)
    (by norm_num) demo_compute

/-- C10: after `compute_lst` returns `v`, the estimator's `lst` field
equals `v`: the cache always agrees with the most recently returned
result. -/
theorem C10_lst_cached (s : SplitWindowLST) (t10 t11 v : ℚ)
    (s' : SplitWindowLST)
    (h : s.compute_lst t10 t11 = Except.ok (v, s')) :
    s'.lst = some v := by
  obtain ⟨-, -, -, hs⟩ := compute_lst_ok_inv h
  subst hs
  rfl

/-- C10 witness: the cache theorem at the concrete call
`demo_est.compute_lst 300 295`. -/
theorem C10_lst_cached_witness :
    ({ demo_est with lst := some (431/2) } : SplitWindowLST).lst =
      some (431/2) :=
  C10_lst_cached demo_est 300 295 (431/2) _ demo_compute
